import Mathlib

/-!
Verification development for the NotesVault client scripts.

The definitions below are a shallow embedding of `src/scripts/auth.js`
(class `AuthService`) and `src/scripts/upload.js`.  Browser-local storage
is modelled by an explicit `AuthState` record (the parsed users array and
the parsed session record, `none` when the key is absent).  The
nondeterministic inputs of the scripts (the SHA-256 digest, the random
salt, `Date.now()`, ISO timestamps, the random temporary password) are
passed as explicit parameters; the digest is a function that may reject,
which models the `try`/`catch` wrappers around the awaited hash calls.
JavaScript string primitives (`toLowerCase`, `trim`, the email regular
expression) are modelled on the character lists of Lean strings,
restricted to ASCII case mapping.
-/

/-- Model of JavaScript `String.prototype.toLowerCase` on one character,
restricted to the ASCII range (A-Z map to a-z, everything else fixed). -/
def lowerChar (c : Char) : Char :=
  if 65 ≤ c.toNat ∧ c.toNat ≤ 90 then Char.ofNat (c.toNat + 32) else c

/-- Model of JavaScript `String.prototype.toLowerCase` (ASCII-restricted). -/
def toLowerCase (s : String) : String :=
  ⟨s.data.map lowerChar⟩

/-- Characters removed at both ends by JavaScript `String.prototype.trim`. -/
def isJsSpace (c : Char) : Bool :=
  c.isWhitespace

/-- Model of JavaScript `String.prototype.trim` on character lists. -/
def trimChars (cs : List Char) : List Char :=
  ((cs.dropWhile isJsSpace).reverse.dropWhile isJsSpace).reverse

/-- `AuthService.sanitizeInput`: trim, then delete every occurrence of the
four characters `<` `>` `'` `"` (code points 60, 62, 39, 34). -/
def sanitizeInput (input : String) : String :=
  ⟨(trimChars input.data).filter
    (fun c => !(c.toNat == 60 || c.toNat == 62 || c.toNat == 39 || c.toNat == 34))⟩

/-- A character admitted by the regex class `[^\s@]` of
`AuthService.validateEmail`. -/
def emailChar (c : Char) : Bool :=
  !c.isWhitespace && c.toNat != 64

/-- Split a character list at its first occurrence of `sep`; the second
component is `none` when `sep` does not occur. -/
def splitAtChar (sep : Char) : List Char → List Char × Option (List Char)
  | [] => ([], none)
  | c :: cs =>
    if c = sep then ([], some cs)
    else
      let r := splitAtChar sep cs
      (c :: r.1, r.2)

/-- `true` iff some `.` occurs at a position that is not the last one. -/
def hasDotBeforeEnd : List Char → Bool
  | [] => false
  | [_] => false
  | c :: cs => (c.toNat == 46) || hasDotBeforeEnd cs

/-- `AuthService.validateEmail`: full match of `/^[^\s@]+@[^\s@]+\.[^\s@]+$/`.
A string matches iff it has exactly one `@`, a nonempty local part of
non-space non-`@` characters, and a domain of non-space non-`@` characters
containing a `.` preceded and followed by at least one character. -/
def validateEmail (email : String) : Bool :=
  match splitAtChar '@' email.data with
  | (_, none) => false
  | (lp, some dom) =>
    !lp.isEmpty && lp.all emailChar && dom.all emailChar &&
      !(dom.any (fun c => c.toNat == 64)) && hasDotBeforeEnd (dom.drop 1)

/-- Result of `AuthService.validatePassword`. -/
structure PwCheck where
  isValid : Bool
  message : String
deriving DecidableEq, Repr

/-- `AuthService.validatePassword`: at least 8 characters and, by the
lookaheads `(?=.*[a-z])(?=.*[A-Z])(?=.*\d)`, at least one ASCII lowercase
letter, one uppercase letter and one digit. -/
def validatePassword (password : String) : PwCheck :=
  if password.length < 8 then
    { isValid := false, message := "Password must be at least 8 characters long" }
  else if !(password.data.any (fun c => 97 ≤ c.toNat ∧ c.toNat ≤ 122) &&
            password.data.any (fun c => 65 ≤ c.toNat ∧ c.toNat ≤ 90) &&
            password.data.any (fun c => 48 ≤ c.toNat ∧ c.toNat ≤ 57)) then
    { isValid := false,
      message := "Password must contain at least one uppercase letter, one lowercase letter, and one number" }
  else
    { isValid := true, message := "Password is valid" }

/-- The `notes` collection stored in a user record. -/
structure Notes where
  lectures : List String
  pyqs : List String
deriving DecidableEq, Repr

/-- A stored user record, as created by `AuthService.register` and mutated
by the other operations.  `notes` is optional because `addNoteToUser` in
`upload.js` guards against a missing `notes` field; `updatedAt`,
`tempPassword` and `mustChangePassword` are absent until first set. -/
structure User where
  id : String
  name : String
  email : String
  passwordHash : String
  salt : String
  createdAt : String
  college : String
  branch : String
  year : String
  notes : Option Notes
  updatedAt : Option String
  tempPassword : Option String
  mustChangePassword : Bool
deriving DecidableEq, Repr

/-- The stored session record. -/
structure Session where
  userId : String
  email : String
  name : String
  loginTime : Nat
  remember : Bool
  lastActivity : Option Nat
deriving DecidableEq, Repr

/-- The browser-local storage owned by the scripts: the parsed
`notesvault_users` array and the parsed `notesvault_session` record
(`none` when the key is absent). -/
structure AuthState where
  users : List User
  session : Option Session
deriving DecidableEq, Repr

/-- `this.sessionTimeout`: 24 hours in milliseconds. -/
def sessionTimeout : Nat := 24 * 60 * 60 * 1000

/-- The salted digest `hashPassword(password, salt)`.  It is a parameter of
the operations; a `.error` value models a rejected Web Crypto call, which
the `try`/`catch` wrappers convert into generic failure results. -/
abbrev HashFn := String → String → Except Unit String

/-- `AuthService.userExists`. -/
def userExists (users : List User) (email : String) : Bool :=
  users.any (fun u => u.email == email)

/-- Update the first element satisfying `p` (JavaScript mutates the object
returned by `find`/`findIndex` in place and rewrites the whole array). -/
def updateFirst {α : Type} (p : α → Bool) (f : α → α) : List α → List α
  | [] => []
  | x :: xs => if p x then f x :: xs else x :: updateFirst p f xs

/-- The `{success, message}` result object of the auth operations. -/
structure AuthResult where
  success : Bool
  message : String
deriving DecidableEq, Repr

/-- The `user` payload included in a successful login result. -/
structure UserView where
  id : String
  name : String
  email : String
  college : String
  branch : String
  year : String
deriving DecidableEq, Repr

/-- The result object of `AuthService.login`. -/
structure LoginResult where
  success : Bool
  message : String
  user : Option UserView
deriving DecidableEq, Repr

/-- The object returned by `AuthService.getCurrentUser` (or `null`). -/
structure CurrentUser where
  id : String
  name : String
  email : String
  college : String
  branch : String
  year : String
  createdAt : String
  notes : Option Notes
deriving DecidableEq, Repr

/-- The result object of `AuthService.resetPassword`. -/
structure ResetResult where
  success : Bool
  message : String
  tempPassword : Option String
deriving DecidableEq, Repr

/-- `AuthService.register`.  `salt` stands for the random value returned by
`generateSalt`, `idStr` for `Date.now().toString()` and `createdAt` for
`new Date().toISOString()`. -/
def register (hash : HashFn) (st : AuthState) (name email password : String)
    (salt idStr createdAt : String) : AuthResult × AuthState :=
  if name = "" ∨ email = "" ∨ password = "" then
    ({ success := false, message := "All fields are required" }, st)
  else
    let sanitizedName := sanitizeInput name
    let sanitizedEmail := toLowerCase (sanitizeInput email)
    if !validateEmail sanitizedEmail then
      ({ success := false, message := "Please enter a valid email address" }, st)
    else
      let passwordValidation := validatePassword password
      if !passwordValidation.isValid then
        ({ success := false, message := passwordValidation.message }, st)
      else if userExists st.users sanitizedEmail then
        ({ success := false, message := "An account with this email already exists" }, st)
      else
        match hash password salt with
        | .error _ =>
          ({ success := false, message := "Registration failed. Please try again." }, st)
        | .ok hashedPassword =>
          let newUser : User :=
            { id := idStr, name := sanitizedName, email := sanitizedEmail,
              passwordHash := hashedPassword, salt := salt, createdAt := createdAt,
              college := "", branch := "", year := "",
              notes := some { lectures := [], pyqs := [] },
              updatedAt := none, tempPassword := none, mustChangePassword := false }
          ({ success := true, message := "Account created successfully!" },
           { st with users := st.users ++ [newUser] })

/-- `AuthService.login`.  `now` stands for `Date.now()`. -/
def login (hash : HashFn) (st : AuthState) (email password : String)
    (remember : Bool) (now : Nat) : LoginResult × AuthState :=
  if email = "" ∨ password = "" then
    ({ success := false, message := "Email and password are required", user := none }, st)
  else
    let sanitizedEmail := toLowerCase (sanitizeInput email)
    match st.users.find? (fun u => u.email == sanitizedEmail) with
    | none =>
      ({ success := false, message := "Invalid email or password", user := none }, st)
    | some user =>
      match hash password user.salt with
      | .error _ =>
        ({ success := false, message := "Login failed. Please try again.", user := none }, st)
      | .ok hashedPassword =>
        if hashedPassword ≠ user.passwordHash then
          ({ success := false, message := "Invalid email or password", user := none }, st)
        else
          let session : Session :=
            { userId := user.id, email := user.email, name := user.name,
              loginTime := now, remember := remember, lastActivity := none }
          ({ success := true, message := "Login successful!",
             user := some { id := user.id, name := user.name, email := user.email,
                            college := user.college, branch := user.branch,
                            year := user.year } },
           { st with session := some session })

/-- `AuthService.logout`: remove the session key (the page redirect is a
pure DOM effect and is not part of the state). -/
def logout (st : AuthState) : AuthState :=
  { st with session := none }

/-- `AuthService.getCurrentUser`.  Returns the user view (or `none`) and
the possibly updated storage: a session whose `userId` matches no stored
user is discarded via `logout`. -/
def getCurrentUser (st : AuthState) : Option CurrentUser × AuthState :=
  match st.session with
  | none => (none, st)
  | some session =>
    match st.users.find? (fun u => u.id == session.userId) with
    | none => (none, logout st)
    | some user =>
      (some { id := user.id, name := user.name, email := user.email,
              college := user.college, branch := user.branch, year := user.year,
              createdAt := user.createdAt, notes := user.notes }, st)

/-- `AuthService.isLoggedIn`: `getCurrentUser() !== null`. -/
def isLoggedIn (st : AuthState) : Bool × AuthState :=
  let r := getCurrentUser st
  (r.1.isSome, r.2)

/-- `AuthService.validateSession`, run on page load.  `now` stands for
`Date.now()`. -/
def validateSession (st : AuthState) (now : Nat) : AuthState :=
  match st.session with
  | none => st
  | some session =>
    if session.remember = false ∧ now - session.loginTime > sessionTimeout then
      logout st
    else
      { st with session := some { session with lastActivity := some now } }

/-- The `profileData` argument of `AuthService.updateProfile`: each allowed
field is either present (`some`) or `undefined` (`none`). -/
structure ProfileData where
  name : Option String
  college : Option String
  branch : Option String
  year : Option String
deriving DecidableEq, Repr

/-- One step of the `allowedFields.forEach` loop in `updateProfile`. -/
def applyProfileField (value : Option String) (set : User → String → User)
    (u : User) : User :=
  match value with
  | some v => set u (sanitizeInput v)
  | none => u

/-- `AuthService.updateProfile`.  `nowIso` stands for
`new Date().toISOString()`. -/
def updateProfile (st : AuthState) (profileData : ProfileData)
    (nowIso : String) : AuthResult × AuthState :=
  let r := getCurrentUser st
  match r.1 with
  | none => ({ success := false, message := "Not logged in" }, r.2)
  | some currentUser =>
    if (r.2.users.find? (fun u => u.id == currentUser.id)).isNone then
      ({ success := false, message := "User not found" }, r.2)
    else
      let upd : User → User := fun u =>
        let u := applyProfileField profileData.name (fun u v => { u with name := v }) u
        let u := applyProfileField profileData.college (fun u v => { u with college := v }) u
        let u := applyProfileField profileData.branch (fun u v => { u with branch := v }) u
        let u := applyProfileField profileData.year (fun u v => { u with year := v }) u
        { u with updatedAt := some nowIso }
      ({ success := true, message := "Profile updated successfully!" },
       { r.2 with users := updateFirst (fun u => u.id == currentUser.id) upd r.2.users })

/-- The mutation `changePassword` applies to the found user record. -/
def pwUpdated (newH newSalt nowIso : String) (u : User) : User :=
  { u with passwordHash := newH, salt := newSalt, updatedAt := some nowIso }

/-- `AuthService.changePassword`.  `newSalt` stands for the fresh random
salt and `nowIso` for `new Date().toISOString()`. -/
def changePassword (hash : HashFn) (st : AuthState)
    (currentPassword newPassword newSalt nowIso : String) : AuthResult × AuthState :=
  let r := getCurrentUser st
  match r.1 with
  | none => ({ success := false, message := "Not logged in" }, r.2)
  | some currentUser =>
    match r.2.users.find? (fun u => u.id == currentUser.id) with
    | none => ({ success := false, message := "User not found" }, r.2)
    | some user =>
      match hash currentPassword user.salt with
      | .error _ => ({ success := false, message := "Failed to change password" }, r.2)
      | .ok hashedCurrentPassword =>
        if hashedCurrentPassword ≠ user.passwordHash then
          ({ success := false, message := "Current password is incorrect" }, r.2)
        else
          let passwordValidation := validatePassword newPassword
          if !passwordValidation.isValid then
            ({ success := false, message := passwordValidation.message }, r.2)
          else
            match hash newPassword newSalt with
            | .error _ => ({ success := false, message := "Failed to change password" }, r.2)
            | .ok newHashedPassword =>
              let upd : User → User := pwUpdated newHashedPassword newSalt nowIso
              ({ success := true, message := "Password changed successfully!" },
               { r.2 with users := updateFirst (fun u => u.id == currentUser.id) upd r.2.users })

/-- `AuthService.deleteAccount`. -/
def deleteAccount (hash : HashFn) (st : AuthState) (password : String) :
    AuthResult × AuthState :=
  let r := getCurrentUser st
  match r.1 with
  | none => ({ success := false, message := "Not logged in" }, r.2)
  | some currentUser =>
    match r.2.users.find? (fun u => u.id == currentUser.id) with
    | none => ({ success := false, message := "User not found" }, r.2)
    | some user =>
      match hash password user.salt with
      | .error _ => ({ success := false, message := "Failed to delete account" }, r.2)
      | .ok hashedPassword =>
        if hashedPassword ≠ user.passwordHash then
          ({ success := false, message := "Password is incorrect" }, r.2)
        else
          let updatedUsers := r.2.users.filter (fun u => u.id != currentUser.id)
          ({ success := true, message := "Account deleted successfully" },
           logout { r.2 with users := updatedUsers })

/-- `AuthService.resetPassword`.  `tempPassword` stands for the random
temporary password, `newSalt` for the fresh salt and `nowIso` for
`new Date().toISOString()`. -/
def resetPassword (hash : HashFn) (st : AuthState)
    (email tempPassword newSalt nowIso : String) : ResetResult × AuthState :=
  let sanitizedEmail := toLowerCase (sanitizeInput email)
  if !validateEmail sanitizedEmail then
    ({ success := false, message := "Please enter a valid email address",
       tempPassword := none }, st)
  else
    match st.users.find? (fun u => u.email == sanitizedEmail) with
    | none =>
      ({ success := true,
         message := "If an account with this email exists, a reset link has been sent.",
         tempPassword := none }, st)
    | some user =>
      match hash tempPassword newSalt with
      | .error _ =>
        ({ success := false, message := "Password reset failed. Please try again.",
           tempPassword := none }, st)
      | .ok newHashedPassword =>
        let upd : User → User := fun u =>
          { u with passwordHash := newHashedPassword, salt := newSalt,
                   tempPassword := some tempPassword, mustChangePassword := true,
                   updatedAt := some nowIso }
        ({ success := true,
           message := "Password reset successful! Your temporary password is: "
             ++ tempPassword ++ ". Please login and change your password immediately.",
           tempPassword := some tempPassword },
         { st with users := updateFirst (fun u => u.id == user.id) upd st.users })

/-- The lectures list of a user, as read through the `notes` guard of
`addNoteToUser` (a missing `notes` field counts as empty lists). -/
def notesLectures (u : User) : List String :=
  (u.notes.getD { lectures := [], pyqs := [] }).lectures

/-- The pyqs list of a user, as read through the `notes` guard of
`addNoteToUser`. -/
def notesPyqs (u : User) : List String :=
  (u.notes.getD { lectures := [], pyqs := [] }).pyqs

/-- The mutation `addNoteToUser` applies to `users[userIndex]`: initialize
a missing `notes` object, then push the title onto `lectures` when the
type is `"lecture"`, onto `pyqs` when it is `"pyq"`, and onto neither list
otherwise. -/
def noteUpdate (title noteType : String) (u : User) : User :=
  let notes := u.notes.getD { lectures := [], pyqs := [] }
  if noteType = "lecture" then
    { u with notes := some { notes with lectures := notes.lectures ++ [title] } }
  else if noteType = "pyq" then
    { u with notes := some { notes with pyqs := notes.pyqs ++ [title] } }
  else
    { u with notes := some notes }

/-- `addNoteToUser` of `upload.js`.  It re-reads the current user; a `null`
current user makes `currentUser.id` throw, modelled by `.error`. -/
def addNoteToUser (st : AuthState) (title noteType : String) :
    Except Unit AuthState :=
  let r := getCurrentUser st
  match r.1 with
  | none => .error ()
  | some currentUser =>
    if (r.2.users.find? (fun u => u.id == currentUser.id)).isNone then
      .ok r.2
    else
      let users := updateFirst (fun u => u.id == currentUser.id) (noteUpdate title noteType) r.2.users
      .ok { r.2 with users := users }

/-- The observable outcome of `handleUpload`: the login alert, the
missing-fields alert, the catch-all failure alert, or the success banner
carrying the uploaded title. -/
inductive UploadOutcome where
  | loginAlert
  | missingFieldsAlert
  | uploadFailedAlert
  | success (title : String)
deriving DecidableEq, Repr

/-- `handleUpload` of `upload.js`.  The five form fields are strings; a
missing or empty field is the falsy `""`. -/
def handleUpload (st : AuthState) (file title subject semester noteType : String) :
    UploadOutcome × AuthState :=
  let r := getCurrentUser st
  match r.1 with
  | none => (.loginAlert, r.2)
  | some _ =>
    if file = "" ∨ title = "" ∨ subject = "" ∨ semester = "" ∨ noteType = "" then
      (.missingFieldsAlert, r.2)
    else
      match addNoteToUser r.2 title noteType with
      | .error _ => (.uploadFailedAlert, r.2)
      | .ok st₂ => (.success title, st₂)

/-- The JavaScript value returned to the caller of an auth operation,
classified by shape: a `{success, message, ...}` result object, a
user-object-or-`null`, a boolean, or `undefined`. -/
inductive OpReturn where
  | result (success : Bool) (message : String)
  | userOrNull (user : Option CurrentUser)
  | boolean (b : Bool)
  | undefinedValue
deriving DecidableEq, Repr

/-- Shape of the value `register` returns. -/
def registerReturn (hash : HashFn) (st : AuthState) (name email password : String)
    (salt idStr createdAt : String) : OpReturn :=
  let r := (register hash st name email password salt idStr createdAt).1
  .result r.success r.message

/-- Shape of the value `login` returns. -/
def loginReturn (hash : HashFn) (st : AuthState) (email password : String)
    (remember : Bool) (now : Nat) : OpReturn :=
  let r := (login hash st email password remember now).1
  .result r.success r.message

/-- Shape of the value `getCurrentUser` returns: a user object or `null`. -/
def getCurrentUserReturn (st : AuthState) : OpReturn :=
  .userOrNull (getCurrentUser st).1

/-- Shape of the value `isLoggedIn` returns: a boolean. -/
def isLoggedInReturn (st : AuthState) : OpReturn :=
  .boolean (isLoggedIn st).1

/-- Shape of the value `updateProfile` returns. -/
def updateProfileReturn (st : AuthState) (profileData : ProfileData)
    (nowIso : String) : OpReturn :=
  let r := (updateProfile st profileData nowIso).1
  .result r.success r.message

/-- Shape of the value `changePassword` returns. -/
def changePasswordReturn (hash : HashFn) (st : AuthState)
    (currentPassword newPassword newSalt nowIso : String) : OpReturn :=
  let r := (changePassword hash st currentPassword newPassword newSalt nowIso).1
  .result r.success r.message

/-- Shape of the value `deleteAccount` returns. -/
def deleteAccountReturn (hash : HashFn) (st : AuthState) (password : String) : OpReturn :=
  let r := (deleteAccount hash st password).1
  .result r.success r.message

/-- Shape of the value `resetPassword` returns. -/
def resetPasswordReturn (hash : HashFn) (st : AuthState)
    (email tempPassword newSalt nowIso : String) : OpReturn :=
  let r := (resetPassword hash st email tempPassword newSalt nowIso).1
  .result r.success r.message

/-- Shape of the value `logout` returns: `undefined`. -/
def logoutReturn (_st : AuthState) : OpReturn :=
  .undefinedValue

/-- The spec's user-collection invariant: stored emails are pairwise
distinct and each is fixed under lowercasing. -/
def EmailInvariant (users : List User) : Prop :=
  (users.map (fun u => u.email)).Pairwise (fun a b => a ≠ b) ∧
  ∀ e ∈ users.map (fun u => u.email), toLowerCase e = e

/-! ### Concrete fixtures used by witnesses and counterexamples -/

/-- A concrete, collision-free stand-in for the salted SHA-256 digest. -/
def demoHash : HashFn := fun p s => Except.ok (p ++ "|" ++ s)

/-- A digest whose call always rejects (models a failing Web Crypto call). -/
def failHash : HashFn := fun _ _ => Except.error ()

def demoUser : User :=
  { id := "1", name := "Alice", email := "a@b.com", passwordHash := "Abcdefg1|s",
    salt := "s", createdAt := "t0", college := "", branch := "", year := "",
    notes := some { lectures := ["l1"], pyqs := [] },
    updatedAt := none, tempPassword := none, mustChangePassword := false }

def demoSession : Session :=
  { userId := "1", email := "a@b.com", name := "Alice", loginTime := 0,
    remember := false, lastActivity := none }

/-- One stored user, no session. -/
def demoState : AuthState := { users := [demoUser], session := none }

/-- One stored user, logged in. -/
def demoStateLoggedIn : AuthState := { users := [demoUser], session := some demoSession }

/-- One stored user, logged in with the remember flag set. -/
def demoStateRemember : AuthState :=
  { users := [demoUser], session := some { demoSession with remember := true } }

/-! ### Helper lemmas -/

theorem charToNat_ofNat_valid (n : Nat) (h : n.isValidChar) :
    (Char.ofNat n).toNat = n := by
  unfold Char.ofNat
  rw [dif_pos h]
  rfl

theorem lowerChar_idem (c : Char) : lowerChar (lowerChar c) = lowerChar c := by
  unfold lowerChar
  by_cases h : 65 ≤ c.toNat ∧ c.toNat ≤ 90
  · rw [if_pos h]
    have hv : (c.toNat + 32).isValidChar := by
      unfold Nat.isValidChar
      omega
    have ht : (Char.ofNat (c.toNat + 32)).toNat = c.toNat + 32 :=
      charToNat_ofNat_valid _ hv
    rw [if_neg]
    rw [ht]
    omega
  · rw [if_neg h, if_neg h]

theorem toLowerCase_idem (s : String) :
    toLowerCase (toLowerCase s) = toLowerCase s := by
  show String.mk ((s.data.map lowerChar).map lowerChar) = String.mk (s.data.map lowerChar)
  rw [List.map_map]
  congr 1
  simp [Function.comp_def, lowerChar_idem]

theorem find?_shape {α : Type} (p : α → Bool) (pre post : List α) (u : α)
    (hpre : ∀ v ∈ pre, p v = false) (hu : p u = true) :
    (pre ++ u :: post).find? p = some u := by
  induction pre with
  | nil => simp [List.find?_cons, hu]
  | cons a l ih =>
    have ha := hpre a (by simp)
    rw [List.cons_append, List.find?_cons_of_neg _ (by simp [ha])]
    exact ih fun v hv => hpre v (by simp [hv])

theorem updateFirst_shape {α : Type} (p : α → Bool) (f : α → α)
    (pre post : List α) (u : α)
    (hpre : ∀ v ∈ pre, p v = false) (hu : p u = true) :
    updateFirst p f (pre ++ u :: post) = pre ++ f u :: post := by
  induction pre with
  | nil => simp [updateFirst, hu]
  | cons a l ih =>
    have ha := hpre a (by simp)
    rw [List.cons_append, updateFirst, if_neg (by simp [ha]), List.cons_append]
    rw [ih fun v hv => hpre v (by simp [hv])]

theorem updateFirst_map {α β : Type} (p : α → Bool) (f : α → α) (g : α → β)
    (hg : ∀ a, g (f a) = g a) (l : List α) :
    (updateFirst p f l).map g = l.map g := by
  induction l with
  | nil => rfl
  | cons a l ih =>
    by_cases h : p a
    · simp [updateFirst, h, hg]
    · simp [updateFirst, h, ih]

/-- Two-branch characterization of `login` once the user lookup and the
digest are fixed: shared by the login-related claims. -/
theorem login_of_find (hash : HashFn) (st : AuthState) (email password : String)
    (remember : Bool) (now : Nat) (u : User) (h : String)
    (hemail : email ≠ "") (hpassword : password ≠ "")
    (hfind : st.users.find? (fun v => v.email == toLowerCase (sanitizeInput email)) = some u)
    (hhash : hash password u.salt = Except.ok h) :
    login hash st email password remember now =
      if h = u.passwordHash then
        ({ success := true, message := "Login successful!",
           user := some { id := u.id, name := u.name, email := u.email,
                          college := u.college, branch := u.branch, year := u.year } },
         { st with session := some { userId := u.id, email := u.email, name := u.name,
                                     loginTime := now, remember := remember,
                                     lastActivity := none } })
      else
        ({ success := false, message := "Invalid email or password", user := none }, st) := by
  unfold login
  rw [if_neg (by simp [hemail, hpassword])]
  dsimp only
  rw [hfind]
  dsimp only
  rw [hhash]
  dsimp only
  by_cases hc : h = u.passwordHash
  · rw [if_neg (by simp [hc]), if_pos hc]
  · rw [if_pos hc, if_neg hc]

/-! ### Claims -/

/-- C1: for a stored user record found under the login email, login fails
and leaves the storage unchanged when the recomputed salted hash of the
password differs from the stored hash, and succeeds and stores a session
whose `userId` is the user's id when it matches. -/
theorem C1_login_password_check (hash : HashFn) (st : AuthState)
    (email password : String) (remember : Bool) (now : Nat) (u : User) (h : String)
    (hemail : email ≠ "") (hpassword : password ≠ "")
    (hfind : st.users.find? (fun v => v.email == toLowerCase (sanitizeInput email)) = some u)
    (hhash : hash password u.salt = Except.ok h) :
    (h ≠ u.passwordHash →
      (login hash st email password remember now).1.success = false ∧
      (login hash st email password remember now).2 = st) ∧
    (h = u.passwordHash →
      (login hash st email password remember now).1.success = true ∧
      (login hash st email password remember now).2.session =
        some { userId := u.id, email := u.email, name := u.name,
               loginTime := now, remember := remember, lastActivity := none }) := by
  have he := login_of_find hash st email password remember now u h
    hemail hpassword hfind hhash
  constructor
  · intro hne
    rw [he, if_neg hne]
    exact ⟨rfl, rfl⟩
  · intro heq
    rw [he, if_pos heq]
    exact ⟨rfl, rfl⟩

theorem C1_login_password_check_witness :
    (login demoHash demoState "a@b.com" "Wrong1234" false 5).1.success = false ∧
    (login demoHash demoState "a@b.com" "Abcdefg1" false 5).1.success = true := by
  constructor
  · exact ((C1_login_password_check demoHash demoState "a@b.com" "Wrong1234" false 5
      demoUser "Wrong1234|s" (by decide) (by decide) (by decide) rfl).1 (by decide)).1
  · exact ((C1_login_password_check demoHash demoState "a@b.com" "Abcdefg1" false 5
      demoUser "Abcdefg1|s" (by decide) (by decide) (by decide) rfl).2 (by decide)).1

/-- C7: on page load, a session without the remember flag whose age exceeds
the 24-hour timeout is removed by `validateSession` (and the user is no
longer logged in), while a session with the remember flag is kept (only its
`lastActivity` is refreshed) regardless of age. -/
theorem C7_session_timeout (st : AuthState) (s : Session) (now : Nat)
    (hs : st.session = some s) :
    (s.remember = false → now - s.loginTime > sessionTimeout →
      (validateSession st now).session = none ∧
      (isLoggedIn (validateSession st now)).1 = false) ∧
    (s.remember = true →
      (validateSession st now).session = some { s with lastActivity := some now }) := by
  constructor
  · intro hr hage
    have hv : validateSession st now = logout st := by
      unfold validateSession
      rw [hs]
      dsimp only
      rw [if_pos ⟨hr, hage⟩]
    rw [hv]
    refine ⟨rfl, ?_⟩
    simp [isLoggedIn, getCurrentUser, logout]
  · intro hr
    unfold validateSession
    rw [hs]
    dsimp only
    rw [if_neg (by simp [hr])]

theorem C7_session_timeout_witness :
    (validateSession demoStateLoggedIn (sessionTimeout + 1)).session = none ∧
    (validateSession demoStateRemember (sessionTimeout + 1)).session =
      some { demoSession with remember := true, lastActivity := some (sessionTimeout + 1) } := by
  constructor
  · exact ((C7_session_timeout demoStateLoggedIn demoSession (sessionTimeout + 1)
      rfl).1 rfl (by decide)).1
  · exact (C7_session_timeout demoStateRemember { demoSession with remember := true }
      (sessionTimeout + 1) rfl).2 rfl

/-- C9: a stored session whose `userId` matches no stored user record is
discarded by `getCurrentUser`, which returns `null`, and `isLoggedIn` is
false. -/
theorem C9_dangling_session (st : AuthState) (s : Session)
    (hs : st.session = some s)
    (hfind : st.users.find? (fun u => u.id == s.userId) = none) :
    (getCurrentUser st).1 = none ∧
    (getCurrentUser st).2.session = none ∧
    (isLoggedIn st).1 = false := by
  have h : getCurrentUser st = (none, logout st) := by
    unfold getCurrentUser
    rw [hs]
    dsimp only
    rw [hfind]
  refine ⟨by rw [h], by rw [h]; rfl, ?_⟩
  unfold isLoggedIn
  rw [h]
  rfl

theorem C9_dangling_session_witness :
    (getCurrentUser { users := [], session := some demoSession }).1 = none ∧
    (getCurrentUser { users := [], session := some demoSession }).2.session = none ∧
    (isLoggedIn { users := [], session := some demoSession }).1 = false :=
  C9_dangling_session { users := [], session := some demoSession } demoSession rfl rfl

/-- Characterization of `getCurrentUser` when the session points at a
stored user. -/
theorem getCurrentUser_of_find (st : AuthState) (s : Session) (u : User)
    (hs : st.session = some s)
    (hfind : st.users.find? (fun v => v.id == s.userId) = some u) :
    getCurrentUser st =
      (some { id := u.id, name := u.name, email := u.email, college := u.college,
              branch := u.branch, year := u.year, createdAt := u.createdAt,
              notes := u.notes }, st) := by
  unfold getCurrentUser
  rw [hs]
  dsimp only
  rw [hfind]

/-- C5: with a valid session and the correct password, `deleteAccount`
removes exactly the session user's record, leaves every other record in
place, and clears the session. -/
theorem C5_deleteAccount_removes_user (hash : HashFn) (st : AuthState) (s : Session)
    (pre post : List User) (u : User) (password : String)
    (hs : st.session = some s)
    (husers : st.users = pre ++ u :: post)
    (hpre : ∀ v ∈ pre, v.id ≠ s.userId)
    (hpost : ∀ v ∈ post, v.id ≠ s.userId)
    (hid : u.id = s.userId)
    (hhash : hash password u.salt = Except.ok u.passwordHash) :
    (deleteAccount hash st password).1.success = true ∧
    (deleteAccount hash st password).2.users = pre ++ post ∧
    (deleteAccount hash st password).2.session = none := by
  have hfind1 : st.users.find? (fun v => v.id == s.userId) = some u := by
    rw [husers]
    exact find?_shape _ pre post u (fun v hv => by simp [hpre v hv]) (by simp [hid])
  have hfind2 : st.users.find? (fun v => v.id == u.id) = some u := by
    rw [husers]
    exact find?_shape _ pre post u (fun v hv => by simp [hid, hpre v hv]) (by simp)
  have hcu := getCurrentUser_of_find st s u hs hfind1
  have hfilter : st.users.filter (fun v => v.id != u.id) = pre ++ post := by
    rw [husers, List.filter_append, List.filter_cons]
    have h1 : pre.filter (fun v => v.id != u.id) = pre :=
      List.filter_eq_self.mpr fun a ha => by simp [hid, hpre a ha]
    have h2 : post.filter (fun v => v.id != u.id) = post :=
      List.filter_eq_self.mpr fun a ha => by simp [hid, hpost a ha]
    simp [h1, h2]
  unfold deleteAccount
  rw [hcu]
  dsimp only
  rw [hfind2]
  dsimp only
  rw [hhash]
  dsimp only
  rw [if_neg (fun hh => hh rfl)]
  rw [hfilter]
  exact ⟨rfl, rfl, rfl⟩

theorem C5_deleteAccount_removes_user_witness :
    (deleteAccount demoHash demoStateLoggedIn "Abcdefg1").1.success = true ∧
    (deleteAccount demoHash demoStateLoggedIn "Abcdefg1").2.users = [] ++ [] ∧
    (deleteAccount demoHash demoStateLoggedIn "Abcdefg1").2.session = none :=
  C5_deleteAccount_removes_user demoHash demoStateLoggedIn demoSession [] [] demoUser
    "Abcdefg1" rfl rfl (by simp) (by simp) rfl rfl

/-- Success-path characterization of `handleUpload` for a logged-in user
with all five fields present, shared by the upload claims. -/
theorem handleUpload_of_shape (st : AuthState) (s : Session) (pre post : List User)
    (u : User) (file title subject semester noteType : String)
    (hs : st.session = some s)
    (husers : st.users = pre ++ u :: post)
    (hpre : ∀ v ∈ pre, v.id ≠ s.userId)
    (hid : u.id = s.userId)
    (hf : file ≠ "") (ht : title ≠ "") (hsub : subject ≠ "") (hsem : semester ≠ "")
    (hnt : noteType ≠ "") :
    handleUpload st file title subject semester noteType =
      (.success title, { st with users := pre ++ noteUpdate title noteType u :: post }) := by
  have hfind1 : st.users.find? (fun v => v.id == s.userId) = some u := by
    rw [husers]
    exact find?_shape _ pre post u (fun v hv => by simp [hpre v hv]) (by simp [hid])
  have hfind2 : st.users.find? (fun v => v.id == u.id) = some u := by
    rw [husers]
    exact find?_shape _ pre post u (fun v hv => by simp [hid, hpre v hv]) (by simp)
  have hcu := getCurrentUser_of_find st s u hs hfind1
  have hupd : updateFirst (fun v => v.id == u.id) (noteUpdate title noteType) st.users =
      pre ++ noteUpdate title noteType u :: post := by
    rw [husers]
    exact updateFirst_shape _ _ pre post u (fun v hv => by simp [hid, hpre v hv]) (by simp)
  have hadd : addNoteToUser st title noteType =
      .ok { st with users := pre ++ noteUpdate title noteType u :: post } := by
    unfold addNoteToUser
    rw [hcu]
    dsimp only
    rw [hfind2]
    rw [if_neg (by simp)]
    rw [hupd]
  unfold handleUpload
  rw [hcu]
  dsimp only
  rw [if_neg (by simp [hf, ht, hsub, hsem, hnt])]
  rw [hadd]

/-- C6: for a logged-in user and a complete upload form, the upload handler
appends the title to the end of the user's lectures list when the note
type is `"lecture"` and to the end of the pyqs list when it is `"pyq"`,
leaving the user's other list unchanged. -/
theorem C6_upload_appends_to_correct_list (st : AuthState) (s : Session)
    (pre post : List User) (u : User) (file title subject semester : String)
    (hs : st.session = some s)
    (husers : st.users = pre ++ u :: post)
    (hpre : ∀ v ∈ pre, v.id ≠ s.userId)
    (hid : u.id = s.userId)
    (hf : file ≠ "") (ht : title ≠ "") (hsub : subject ≠ "") (hsem : semester ≠ "") :
    ((handleUpload st file title subject semester "lecture").1 =
        UploadOutcome.success title ∧
      (handleUpload st file title subject semester "lecture").2.users =
        pre ++ noteUpdate title "lecture" u :: post ∧
      notesLectures (noteUpdate title "lecture" u) = notesLectures u ++ [title] ∧
      notesPyqs (noteUpdate title "lecture" u) = notesPyqs u) ∧
    ((handleUpload st file title subject semester "pyq").1 =
        UploadOutcome.success title ∧
      (handleUpload st file title subject semester "pyq").2.users =
        pre ++ noteUpdate title "pyq" u :: post ∧
      notesPyqs (noteUpdate title "pyq" u) = notesPyqs u ++ [title] ∧
      notesLectures (noteUpdate title "pyq" u) = notesLectures u) := by
  have hl := handleUpload_of_shape st s pre post u file title subject semester "lecture"
    hs husers hpre hid hf ht hsub hsem (by decide)
  have hp := handleUpload_of_shape st s pre post u file title subject semester "pyq"
    hs husers hpre hid hf ht hsub hsem (by decide)
  constructor
  · refine ⟨by rw [hl], by rw [hl], ?_, ?_⟩
    · simp [noteUpdate, notesLectures]
    · simp [noteUpdate, notesPyqs]
  · refine ⟨by rw [hp], by rw [hp], ?_, ?_⟩
    · simp [noteUpdate, notesPyqs]
    · simp [noteUpdate, notesLectures]

theorem C6_upload_appends_to_correct_list_witness :
    (handleUpload demoStateLoggedIn "f.pdf" "T1" "Math" "3" "lecture").1 =
      UploadOutcome.success "T1" ∧
    notesLectures (noteUpdate "T1" "lecture" demoUser) = notesLectures demoUser ++ ["T1"] ∧
    notesPyqs (noteUpdate "T1" "pyq" demoUser) = notesPyqs demoUser ++ ["T1"] := by
  have h := C6_upload_appends_to_correct_list demoStateLoggedIn demoSession [] [] demoUser
    "f.pdf" "T1" "Math" "3" rfl rfl (by simp) rfl
    (by decide) (by decide) (by decide) (by decide)
  exact ⟨h.1.1, h.1.2.2.1, h.2.2.2.1⟩

/-- C10: with a logged-in user and all five fields present, a note type
that is neither `"lecture"` nor `"pyq"` still takes the success path, yet
the lectures and pyqs lists of every stored user are unchanged. -/
theorem C10_unknown_noteType_drops_note (st : AuthState) (s : Session)
    (pre post : List User) (u : User)
    (file title subject semester noteType : String)
    (hs : st.session = some s)
    (husers : st.users = pre ++ u :: post)
    (hpre : ∀ v ∈ pre, v.id ≠ s.userId)
    (hid : u.id = s.userId)
    (hf : file ≠ "") (ht : title ≠ "") (hsub : subject ≠ "") (hsem : semester ≠ "")
    (hnt : noteType ≠ "") (hnl : noteType ≠ "lecture") (hnp : noteType ≠ "pyq") :
    (handleUpload st file title subject semester noteType).1 =
      UploadOutcome.success title ∧
    ((handleUpload st file title subject semester noteType).2.users.map
        (fun v => (notesLectures v, notesPyqs v))) =
      st.users.map (fun v => (notesLectures v, notesPyqs v)) := by
  have h := handleUpload_of_shape st s pre post u file title subject semester noteType
    hs husers hpre hid hf ht hsub hsem hnt
  refine ⟨by rw [h], ?_⟩
  rw [h]
  show (pre ++ noteUpdate title noteType u :: post).map _ = st.users.map _
  rw [husers, List.map_append, List.map_append, List.map_cons, List.map_cons]
  have hu : noteUpdate title noteType u = { u with notes := some (u.notes.getD { lectures := [], pyqs := [] }) } := by
    simp [noteUpdate, hnl, hnp]
  rw [hu]
  simp [notesLectures, notesPyqs]

theorem C10_unknown_noteType_drops_note_witness :
    (handleUpload demoStateLoggedIn "f.pdf" "T1" "Math" "3" "cheatsheet").1 =
      UploadOutcome.success "T1" ∧
    ((handleUpload demoStateLoggedIn "f.pdf" "T1" "Math" "3" "cheatsheet").2.users.map
        (fun v => (notesLectures v, notesPyqs v))) =
      demoStateLoggedIn.users.map (fun v => (notesLectures v, notesPyqs v)) :=
  C10_unknown_noteType_drops_note demoStateLoggedIn demoSession [] [] demoUser
    "f.pdf" "T1" "Math" "3" "cheatsheet" rfl rfl (by simp) rfl
    (by decide) (by decide) (by decide) (by decide) (by decide) (by decide) (by decide)

/-- Success-path characterization of `changePassword` for a logged-in user
whose current password verifies and whose new password passes validation. -/
theorem changePassword_of_shape (hash : HashFn) (st : AuthState) (s : Session)
    (pre post : List User) (u : User) (cur new newSalt nowIso newH : String)
    (hs : st.session = some s)
    (husers : st.users = pre ++ u :: post)
    (hpre : ∀ v ∈ pre, v.id ≠ s.userId)
    (hid : u.id = s.userId)
    (hcur : hash cur u.salt = Except.ok u.passwordHash)
    (hvalid : (validatePassword new).isValid = true)
    (hnew : hash new newSalt = Except.ok newH) :
    changePassword hash st cur new newSalt nowIso =
      ({ success := true, message := "Password changed successfully!" },
       { st with users := pre ++ pwUpdated newH newSalt nowIso u :: post }) := by
  have hfind1 : st.users.find? (fun v => v.id == s.userId) = some u := by
    rw [husers]
    exact find?_shape _ pre post u (fun v hv => by simp [hpre v hv]) (by simp [hid])
  have hfind2 : st.users.find? (fun v => v.id == u.id) = some u := by
    rw [husers]
    exact find?_shape _ pre post u (fun v hv => by simp [hid, hpre v hv]) (by simp)
  have hcu := getCurrentUser_of_find st s u hs hfind1
  have hupd : updateFirst (fun v => v.id == u.id)
      (pwUpdated newH newSalt nowIso) st.users =
      pre ++ pwUpdated newH newSalt nowIso u :: post := by
    rw [husers]
    exact updateFirst_shape _ _ pre post u (fun v hv => by simp [hid, hpre v hv]) (by simp)
  unfold changePassword
  rw [hcu]
  dsimp only
  rw [hfind2]
  dsimp only
  rw [hcur]
  dsimp only
  rw [if_neg (fun hh => hh rfl)]
  rw [if_neg (by simp [hvalid])]
  rw [hnew]
  dsimp only
  rw [hupd]

/-- C2 as stated is false on the code: `changePassword` accepts a new
password equal to the current one, and then the old password still logs
in.  Concretely, changing the password `"Abcdefg1"` to itself succeeds,
and a subsequent login with `"Abcdefg1"` also succeeds. -/
theorem C2_counterexample :
    (changePassword demoHash demoStateLoggedIn "Abcdefg1" "Abcdefg1" "s2" "t2").1.success
      = true ∧
    (login demoHash
      (changePassword demoHash demoStateLoggedIn "Abcdefg1" "Abcdefg1" "s2" "t2").2
      "a@b.com" "Abcdefg1" false 7).1.success = true := by
  exact ⟨rfl, rfl⟩

/-- C2 (amended): after a successful `changePassword` whose new salted hash
differs from the hash the old password gets under the new salt (in
particular whenever the new password differs from the old one and the
digest is collision-free), a subsequent login with the old password
returns a failure result. -/
theorem C2_changePassword_invalidates_old (hash : HashFn) (st : AuthState)
    (s : Session) (pre post : List User) (u : User)
    (cur new newSalt nowIso newH curH : String) (r : Bool) (now : Nat)
    (hs : st.session = some s)
    (husers : st.users = pre ++ u :: post)
    (hpreId : ∀ v ∈ pre, v.id ≠ s.userId)
    (hpreEmail : ∀ v ∈ pre, v.email ≠ u.email)
    (hid : u.id = s.userId)
    (hsan : toLowerCase (sanitizeInput u.email) = u.email)
    (hemail : u.email ≠ "") (hcurne : cur ≠ "")
    (hcur : hash cur u.salt = Except.ok u.passwordHash)
    (hvalid : (validatePassword new).isValid = true)
    (hnew : hash new newSalt = Except.ok newH)
    (hcn : hash cur newSalt = Except.ok curH)
    (hne : curH ≠ newH) :
    (changePassword hash st cur new newSalt nowIso).1.success = true ∧
    (login hash (changePassword hash st cur new newSalt nowIso).2
      u.email cur r now).1.success = false := by
  have hch := changePassword_of_shape hash st s pre post u cur new newSalt nowIso newH
    hs husers hpreId hid hcur hvalid hnew
  refine ⟨by rw [hch], ?_⟩
  rw [hch]
  have hfindE : ({ st with users := pre ++ pwUpdated newH newSalt nowIso u :: post }
        : AuthState).users.find?
      (fun v => v.email == toLowerCase (sanitizeInput u.email)) =
      some (pwUpdated newH newSalt nowIso u) := by
    show (pre ++ pwUpdated newH newSalt nowIso u :: post).find? _ = _
    exact find?_shape _ pre post (pwUpdated newH newSalt nowIso u)
      (fun v hv => by simp [hsan, hpreEmail v hv]) (by simp [pwUpdated, hsan])
  have hl := login_of_find hash
    { st with users := pre ++ pwUpdated newH newSalt nowIso u :: post }
    u.email cur r now (pwUpdated newH newSalt nowIso u) curH hemail hcurne hfindE hcn
  rw [hl, if_neg (show ¬curH = (pwUpdated newH newSalt nowIso u).passwordHash from hne)]

theorem C2_changePassword_invalidates_old_witness :
    (changePassword demoHash demoStateLoggedIn "Abcdefg1" "Xbcdefg2" "s2" "t2").1.success
      = true ∧
    (login demoHash
      (changePassword demoHash demoStateLoggedIn "Abcdefg1" "Xbcdefg2" "s2" "t2").2
      "a@b.com" "Abcdefg1" false 7).1.success = false :=
  C2_changePassword_invalidates_old demoHash demoStateLoggedIn demoSession [] [] demoUser
    "Abcdefg1" "Xbcdefg2" "s2" "t2" "Xbcdefg2|s2" "Abcdefg1|s2" false 7
    rfl rfl (by simp) (by simp) rfl (by decide) (by decide) (by decide)
    rfl (by decide) rfl rfl (by decide)

/-- C3 as stated is false on the code: with a duplicate email but a
password failing the strength validation, `register` fails with the
password message, not with "already exists" (the stored collection is
still unchanged). -/
theorem C3_counterexample :
    userExists demoState.users (toLowerCase (sanitizeInput "a@b.com")) = true ∧
    (register demoHash demoState "Bob" "a@b.com" "x" "s9" "9" "t9").1.success = false ∧
    (register demoHash demoState "Bob" "a@b.com" "x" "s9" "9" "t9").1.message =
      "Password must be at least 8 characters long" ∧
    (register demoHash demoState "Bob" "a@b.com" "x" "s9" "9" "t9").1.message ≠
      "An account with this email already exists" := by
  exact ⟨by decide, by decide, by decide, by decide⟩

/-- C3 (amended): when all three fields are present, the sanitized
lowercased email is well-formed, the password passes the strength
validation, and a user with that sanitized lowercased email is already
stored, `register` returns the failure result "An account with this email
already exists" and leaves the storage unchanged. -/
theorem C3_register_duplicate_email (hash : HashFn) (st : AuthState)
    (name email password salt idStr createdAt : String)
    (hname : name ≠ "") (hemail : email ≠ "") (hpassword : password ≠ "")
    (hvalidEmail : validateEmail (toLowerCase (sanitizeInput email)) = true)
    (hvalidPw : (validatePassword password).isValid = true)
    (hdup : userExists st.users (toLowerCase (sanitizeInput email)) = true) :
    register hash st name email password salt idStr createdAt =
      ({ success := false, message := "An account with this email already exists" }, st) := by
  unfold register
  rw [if_neg (by simp [hname, hemail, hpassword])]
  dsimp only
  rw [if_neg (by simp [hvalidEmail])]
  rw [if_neg (by simp [hvalidPw])]
  rw [if_pos hdup]

theorem C3_register_duplicate_email_witness :
    register demoHash demoState "Bob" "a@b.com" "Xbcdefg1" "s9" "9" "t9" =
      ({ success := false, message := "An account with this email already exists" },
       demoState) :=
  C3_register_duplicate_email demoHash demoState "Bob" "a@b.com" "Xbcdefg1" "s9" "9" "t9"
    (by decide) (by decide) (by decide) (by decide) (by decide) (by decide)

/-- Transport of the email invariant along a sublist of the email list. -/
theorem emailInvariant_of_sublist {l l' : List User}
    (h : (l'.map fun u => u.email).Sublist (l.map fun u => u.email))
    (hinv : EmailInvariant l) : EmailInvariant l' :=
  ⟨List.Pairwise.sublist h hinv.1, fun e he => hinv.2 e (h.subset he)⟩

/-- Transport of the email invariant along equality of the email lists. -/
theorem emailInvariant_of_map_eq {l l' : List User}
    (h : (l'.map fun u => u.email) = (l.map fun u => u.email))
    (hinv : EmailInvariant l) : EmailInvariant l' :=
  emailInvariant_of_sublist (h ▸ List.Sublist.refl _) hinv

/-- `getCurrentUser` never modifies the stored user collection. -/
theorem getCurrentUser_users (st : AuthState) :
    (getCurrentUser st).2.users = st.users := by
  unfold getCurrentUser
  split
  · rfl
  · split <;> rfl

/-- `login` never modifies the stored user collection. -/
theorem login_users (hash : HashFn) (st : AuthState) (email password : String)
    (remember : Bool) (now : Nat) :
    (login hash st email password remember now).2.users = st.users := by
  unfold login
  split
  · rfl
  · dsimp only
    split
    · rfl
    · split
      · rfl
      · split <;> rfl

/-- A failed duplicate check means no stored user carries the email. -/
theorem userExists_eq_false {users : List User} {e : String}
    (h : userExists users e = false) : ∀ u ∈ users, u.email ≠ e := by
  intro u hu
  have hx := List.any_eq_false.mp h u hu
  simpa using hx

/-- `register` preserves the email-uniqueness invariant. -/
theorem register_emailInvariant (hash : HashFn) (st : AuthState)
    (name email password salt idStr createdAt : String)
    (hinv : EmailInvariant st.users) :
    EmailInvariant (register hash st name email password salt idStr createdAt).2.users := by
  unfold register
  split
  · exact hinv
  · dsimp only
    split
    · exact hinv
    · split
      · exact hinv
      · split
        · exact hinv
        · rename_i hex
          split
          · exact hinv
          · dsimp only
            refine ⟨?_, ?_⟩
            · rw [List.map_append, List.pairwise_append]
              refine ⟨hinv.1, by simp, ?_⟩
              intro a ha b hb
              simp only [List.map_cons, List.map_nil, List.mem_singleton] at hb
              subst hb
              obtain ⟨v, hv, rfl⟩ := List.mem_map.mp ha
              exact userExists_eq_false (by simpa using hex) v hv
            · intro e he
              rw [List.map_append] at he
              rcases List.mem_append.mp he with hl | hr
              · exact hinv.2 e hl
              · simp only [List.map_cons, List.map_nil, List.mem_singleton] at hr
                subst hr
                exact toLowerCase_idem _

/-- `updateProfile` leaves every stored email unchanged. -/
theorem updateProfile_map_email (st : AuthState) (pd : ProfileData) (nowIso : String) :
    ((updateProfile st pd nowIso).2.users.map fun u => u.email) =
      st.users.map fun u => u.email := by
  have hg := getCurrentUser_users st
  unfold updateProfile
  dsimp only
  split
  · dsimp only
    rw [hg]
  · split
    · dsimp only
      rw [hg]
    · dsimp only
      rw [updateFirst_map, hg]
      intro a
      cases hn : pd.name <;> cases hc : pd.college <;> cases hb : pd.branch <;>
        cases hy : pd.year <;> simp [applyProfileField, hn, hc, hb, hy]

/-- `changePassword` leaves every stored email unchanged. -/
theorem changePassword_map_email (hash : HashFn) (st : AuthState)
    (cur new newSalt nowIso : String) :
    ((changePassword hash st cur new newSalt nowIso).2.users.map fun u => u.email) =
      st.users.map fun u => u.email := by
  have hg := getCurrentUser_users st
  unfold changePassword
  dsimp only
  split
  · dsimp only
    rw [hg]
  · split
    · dsimp only
      rw [hg]
    · split
      · dsimp only
        rw [hg]
      · split
        · dsimp only
          rw [hg]
        · split
          · dsimp only
            rw [hg]
          · split
            · dsimp only
              rw [hg]
            · dsimp only
              rw [updateFirst_map, hg]
              intro a
              simp [pwUpdated]

/-- `resetPassword` leaves every stored email unchanged. -/
theorem resetPassword_map_email (hash : HashFn) (st : AuthState)
    (email tempPassword newSalt nowIso : String) :
    ((resetPassword hash st email tempPassword newSalt nowIso).2.users.map
        fun u => u.email) =
      st.users.map fun u => u.email := by
  unfold resetPassword
  dsimp only
  split
  · rfl
  · split
    · rfl
    · split
      · rfl
      · dsimp only
        rw [updateFirst_map]
        intro a
        simp

/-- The email list of `deleteAccount`'s result is a sublist of the input's. -/
theorem deleteAccount_map_email_sublist (hash : HashFn) (st : AuthState)
    (password : String) :
    (((deleteAccount hash st password).2.users.map fun u => u.email)).Sublist
      (st.users.map fun u => u.email) := by
  have hg := getCurrentUser_users st
  unfold deleteAccount
  dsimp only
  split
  · dsimp only
    rw [hg]
  · split
    · dsimp only
      rw [hg]
    · split
      · dsimp only
        rw [hg]
      · split
        · dsimp only
          rw [hg]
        · dsimp only [logout]
          rw [hg]
          exact List.Sublist.map _ (List.filter_sublist _)

/-- C4: the email-uniqueness invariant (pairwise distinct, lowercased
stored emails) is preserved by every state-changing Auth operation:
`register`, `login`, `updateProfile`, `changePassword`, `deleteAccount`
and `resetPassword`. -/
theorem C4_email_uniqueness_invariant (hash : HashFn) (st : AuthState)
    (name email password salt idStr createdAt : String)
    (lemail lpassword : String) (rem : Bool) (now : Nat)
    (pd : ProfileData) (nowIso cur new newSalt dpw remail tpw rsalt : String)
    (hinv : EmailInvariant st.users) :
    EmailInvariant (register hash st name email password salt idStr createdAt).2.users ∧
    EmailInvariant (login hash st lemail lpassword rem now).2.users ∧
    EmailInvariant (updateProfile st pd nowIso).2.users ∧
    EmailInvariant (changePassword hash st cur new newSalt nowIso).2.users ∧
    EmailInvariant (deleteAccount hash st dpw).2.users ∧
    EmailInvariant (resetPassword hash st remail tpw rsalt nowIso).2.users := by
  refine ⟨register_emailInvariant hash st name email password salt idStr createdAt hinv,
    ?_, ?_, ?_, ?_, ?_⟩
  · rw [login_users]
    exact hinv
  · exact emailInvariant_of_map_eq (updateProfile_map_email st pd nowIso) hinv
  · exact emailInvariant_of_map_eq (changePassword_map_email hash st cur new newSalt nowIso) hinv
  · exact emailInvariant_of_sublist (deleteAccount_map_email_sublist hash st dpw) hinv
  · exact emailInvariant_of_map_eq (resetPassword_map_email hash st remail tpw rsalt nowIso) hinv

theorem C4_email_uniqueness_invariant_witness :
    EmailInvariant (register demoHash demoStateLoggedIn "Bob" "c@d.com" "Xbcdefg1" "s9" "9" "t9").2.users ∧
    EmailInvariant (login demoHash demoStateLoggedIn "a@b.com" "Abcdefg1" false 5).2.users ∧
    EmailInvariant (updateProfile demoStateLoggedIn ⟨some "Al", none, none, none⟩ "t4").2.users ∧
    EmailInvariant (changePassword demoHash demoStateLoggedIn "Abcdefg1" "Xbcdefg2" "s2" "t2").2.users ∧
    EmailInvariant (deleteAccount demoHash demoStateLoggedIn "Abcdefg1").2.users ∧
    EmailInvariant (resetPassword demoHash demoStateLoggedIn "a@b.com" "Tmp" "s3" "t3").2.users :=
  C4_email_uniqueness_invariant demoHash demoStateLoggedIn "Bob" "c@d.com" "Xbcdefg1"
    "s9" "9" "t9" "a@b.com" "Abcdefg1" false 5 ⟨some "Al", none, none, none⟩
    "t4" "Abcdefg1" "Xbcdefg2" "s2" "Abcdefg1" "a@b.com" "Tmp" "s3"
    (by constructor
        · decide
        · decide)

/-- C8 as stated is false on the code: `getCurrentUser` does not return a
`{success, message}` result object; it returns a user object or `null`.
At the empty storage it returns `null`, which has no success flag or
message. -/
theorem C8_counterexample :
    getCurrentUserReturn { users := [], session := none } = OpReturn.userOrNull none ∧
    ¬ ∃ b m, getCurrentUserReturn { users := [], session := none } =
      OpReturn.result b m := by
  constructor
  · rfl
  · rintro ⟨b, m, h⟩
    exact OpReturn.noConfusion h

/-- C8 (amended): the six async operations (`register`, `login`,
`updateProfile`, `changePassword`, `deleteAccount`, `resetPassword`)
return a result object carrying a success flag and a user-facing message,
and a rejected digest call inside them is caught and converted to the
operation's generic failure result; `getCurrentUser` instead returns a
user object or `null`, `isLoggedIn` returns a boolean, and `logout`
returns `undefined`. -/
theorem C8_result_shapes (hash : HashFn) (st : AuthState)
    (name email password salt idStr createdAt lemail lpassword : String)
    (rem : Bool) (now : Nat) (pd : ProfileData)
    (nowIso cur new newSalt dpw remail tpw rsalt : String)
    (s : Session) (u₁ u₂ u₃ : User) :
    (∃ b m, registerReturn hash st name email password salt idStr createdAt =
      OpReturn.result b m) ∧
    (∃ b m, loginReturn hash st lemail lpassword rem now = OpReturn.result b m) ∧
    (∃ b m, updateProfileReturn st pd nowIso = OpReturn.result b m) ∧
    (∃ b m, changePasswordReturn hash st cur new newSalt nowIso = OpReturn.result b m) ∧
    (∃ b m, deleteAccountReturn hash st dpw = OpReturn.result b m) ∧
    (∃ b m, resetPasswordReturn hash st remail tpw rsalt nowIso = OpReturn.result b m) ∧
    (∃ ou, getCurrentUserReturn st = OpReturn.userOrNull ou) ∧
    (∃ b, isLoggedInReturn st = OpReturn.boolean b) ∧
    logoutReturn st = OpReturn.undefinedValue ∧
    (lemail ≠ "" → lpassword ≠ "" →
      st.users.find? (fun v => v.email == toLowerCase (sanitizeInput lemail)) = some u₁ →
      (login failHash st lemail lpassword rem now).1 =
        { success := false, message := "Login failed. Please try again.", user := none }) ∧
    (name ≠ "" → email ≠ "" → password ≠ "" →
      validateEmail (toLowerCase (sanitizeInput email)) = true →
      (validatePassword password).isValid = true →
      userExists st.users (toLowerCase (sanitizeInput email)) = false →
      (register failHash st name email password salt idStr createdAt).1 =
        { success := false, message := "Registration failed. Please try again." }) ∧
    (st.session = some s →
      st.users.find? (fun v => v.id == s.userId) = some u₂ →
      (changePassword failHash st cur new newSalt nowIso).1 =
        { success := false, message := "Failed to change password" } ∧
      (deleteAccount failHash st dpw).1 =
        { success := false, message := "Failed to delete account" }) ∧
    (validateEmail (toLowerCase (sanitizeInput remail)) = true →
      st.users.find? (fun v => v.email == toLowerCase (sanitizeInput remail)) = some u₃ →
      (resetPassword failHash st remail tpw rsalt nowIso).1 =
        { success := false, message := "Password reset failed. Please try again.",
          tempPassword := none }) := by
  refine ⟨⟨_, _, rfl⟩, ⟨_, _, rfl⟩, ⟨_, _, rfl⟩, ⟨_, _, rfl⟩, ⟨_, _, rfl⟩, ⟨_, _, rfl⟩,
    ⟨_, rfl⟩, ⟨_, rfl⟩, rfl, ?_, ?_, ?_, ?_⟩
  · intro h1 h2 hf
    unfold login
    rw [if_neg (by simp [h1, h2])]
    dsimp only
    rw [hf]
    rfl
  · intro h1 h2 h3 hve hvp hex
    unfold register
    rw [if_neg (by simp [h1, h2, h3])]
    dsimp only
    rw [if_neg (by simp [hve])]
    rw [if_neg (by simp [hvp])]
    rw [if_neg (by simp [hex])]
    rfl
  · intro hs hf
    have hid : u₂.id = s.userId := by
      have hp := List.find?_some hf
      simpa using hp
    have hcu := getCurrentUser_of_find st s u₂ hs hf
    constructor
    · unfold changePassword
      rw [hcu]
      dsimp only
      simp only [hid]
      rw [hf]
      rfl
    · unfold deleteAccount
      rw [hcu]
      dsimp only
      simp only [hid]
      rw [hf]
      rfl
  · intro hve hf
    unfold resetPassword
    rw [if_neg (by simp [hve])]
    dsimp only
    rw [hf]
    rfl

theorem C8_result_shapes_witness :
    (login failHash demoStateLoggedIn "a@b.com" "Abcdefg1" false 5).1 =
      { success := false, message := "Login failed. Please try again.", user := none } ∧
    (register failHash demoStateLoggedIn "Bob" "c@d.com" "Xbcdefg1" "s9" "9" "t9").1 =
      { success := false, message := "Registration failed. Please try again." } ∧
    (changePassword failHash demoStateLoggedIn "Abcdefg1" "Xbcdefg2" "s2" "t2").1 =
      { success := false, message := "Failed to change password" } ∧
    (deleteAccount failHash demoStateLoggedIn "Abcdefg1").1 =
      { success := false, message := "Failed to delete account" } ∧
    (resetPassword failHash demoStateLoggedIn "a@b.com" "Tmp" "s3" "t3").1 =
      { success := false, message := "Password reset failed. Please try again.",
        tempPassword := none } := by
  have h := C8_result_shapes failHash demoStateLoggedIn "Bob" "c@d.com" "Xbcdefg1"
    "s9" "9" "t9" "a@b.com" "Abcdefg1" false 5 ⟨none, none, none, none⟩
    "t2" "Abcdefg1" "Xbcdefg2" "s2" "Abcdefg1" "a@b.com" "Tmp" "s3"
    demoSession demoUser demoUser demoUser
  obtain ⟨-, -, -, -, -, -, -, -, -, h10, h11, h12, h13⟩ := h
  refine ⟨h10 (by decide) (by decide) (by decide),
    h11 (by decide) (by decide) (by decide) (by decide) (by decide) (by decide),
    (h12 rfl (by decide)).1, (h12 rfl (by decide)).2,
    h13 (by decide) (by decide)⟩
